import Mathlib

/-!
Verification development for the minecharts control-plane API.

The Go sources are shallowly embedded: pure helpers become Lean functions,
stateful handlers become explicit state-passing functions over a cluster
state and a credential store, and fallible calls return Except values.
Machine integers (int64 permission bitmasks, int32 replica counts) are
modelled as Nat since every value handled by the program is a small
non-negative constant and no overflow is reachable.  Timestamps are Nat
(a time.Time zero value, or a nil *time.Time, is encoded as 0).
-/

namespace Minecharts

/-! ### Configuration (src/cmd/config/config.go, default values) -/

/-- Default value of MINECHARTS_DEPLOYMENT_PREFIX (src/cmd/config/config.go). -/
def DeploymentPrefix : String := "minecraft-server-"

/-- Default value of MINECHARTS_PVC_SUFFIX (src/cmd/config/config.go). -/
def PVCSuffix : String := "-pvc"

/-- Default value of MINECHARTS_NAMESPACE (src/cmd/config/config.go). -/
def DefaultNamespace : String := "minecharts"

/-- DefaultReplicas (src/cmd/config/config.go). -/
def DefaultReplicas : Nat := 1

/-! ### Permission flags (src/cmd/database/models.go) -/

/-- PermAdmin, 1 shifted by 0 (src/cmd/database/models.go). -/
def PermAdmin : Nat := 1

/-- PermCreateServer (src/cmd/database/models.go). -/
def PermCreateServer : Nat := 2

/-- PermDeleteServer (src/cmd/database/models.go). -/
def PermDeleteServer : Nat := 4

/-- PermStartServer (src/cmd/database/models.go). -/
def PermStartServer : Nat := 8

/-- PermStopServer (src/cmd/database/models.go). -/
def PermStopServer : Nat := 16

/-- PermRestartServer (src/cmd/database/models.go). -/
def PermRestartServer : Nat := 32

/-- PermExecCommand (src/cmd/database/models.go). -/
def PermExecCommand : Nat := 64

/-- PermViewServer (src/cmd/database/models.go). -/
def PermViewServer : Nat := 128

/-! ### Data model (src/cmd/database/models.go) -/

/-- User record (src/cmd/database/models.go).  The int64 permission bitmask
is a Nat; lastLogin is Option Nat mirroring the nullable pointer field. -/
structure User where
  id : Nat
  username : String
  email : String
  passwordHash : String
  permissions : Nat
  active : Bool
  lastLogin : Option Nat
  createdAt : Nat
  updatedAt : Nat
  deriving DecidableEq

/-- User.HasPermission (src/cmd/database/models.go): admins pass every
check, otherwise the requested bit must be set. -/
def User.HasPermission (u : User) (permission : Nat) : Bool :=
  if u.permissions &&& PermAdmin != 0 then
    true
  else
    u.permissions &&& permission != 0

/-- User.IsAdmin (src/cmd/database/models.go). -/
def User.IsAdmin (u : User) : Bool :=
  u.HasPermission PermAdmin

/-- APIKey record (src/cmd/database/models.go).  expiresAt = 0 encodes both
the nil pointer of the sqlite revision and the zero time.Time of the
postgres revision, i.e. a key with no expiry. -/
structure APIKeyRec where
  id : Nat
  userID : Nat
  key : String
  description : String
  lastUsed : Nat
  expiresAt : Nat
  createdAt : Nat
  deriving DecidableEq

/-- MinecraftServer ownership record as consumed by RequireServerPermission
through GetServerByName (src/cmd/config/config.go). -/
structure ServerRec where
  name : String
  ownerID : Nat
  deriving DecidableEq

/-- Modelled from the spec: the method User.HasServerPermission is called
from RequireServerPermission (src/cmd/config/config.go line 416) but its
declaration is not among the provided sources.  Per section 4.2 of the
specification, the check passes when the principal is an admin, when the
principal owns the server, or when the principal holds the global flag. -/
def User.HasServerPermission (u : User) (serverOwnerID : Nat) (permission : Nat) : Bool :=
  u.IsAdmin || u.id == serverOwnerID || u.HasPermission permission

/-! ### Credential store (src/cmd/database/sqlite.go, postgres.go)

The store holds the relational tables the authentication chain reads.
nowTime models time.Now() at the moment of the call; updateExecFails is
the oracle deciding whether the UPDATE statement issued for the lastUsed
column fails at the database layer. -/

structure Store where
  users : List User
  apiKeys : List APIKeyRec
  servers : List ServerRec
  updateExecFails : Bool
  nowTime : Nat
  deriving DecidableEq

/-- Domain errors of the store (src/cmd/database): ErrInvalidAPIKey, or a
transport-level database error. -/
inductive DBErr where
  | invalidAPIKey
  | execError
  deriving DecidableEq

/-- GetUserByID as consumed by the middlewares: row lookup by id, none for
the no-rows error. -/
def Store.getUserByID (db : Store) (uid : Nat) : Option User :=
  db.users.find? (fun u => u.id == uid)

/-- GetServerByName as consumed by RequireServerPermission: row lookup by
unique server name, none for the no-rows error. -/
def Store.getServerByName (db : Store) (name : String) : Option ServerRec :=
  db.servers.find? (fun s => s.name == name)

/-- Writes the lastUsed column of the row with the given key id. -/
def Store.writeLastUsed (db : Store) (keyID : Nat) : Store :=
  { db with apiKeys :=
      db.apiKeys.map (fun k => if k.id == keyID then { k with lastUsed := db.nowTime } else k) }

/-- SQLiteDB.GetAPIKey (src/cmd/database/sqlite.go lines 422-482): look the
key up by its secret; absent rows give ErrInvalidAPIKey; then the lastUsed
column is updated synchronously and a failing UPDATE makes the whole call
return that error; finally a key expired relative to time.Now() gives
ErrInvalidAPIKey.  The nil-pointer expiry test of the source is the
expiresAt = 0 test here. -/
def SQLiteDB.GetAPIKey (db : Store) (keyStr : String) : Except DBErr APIKeyRec × Store :=
  match db.apiKeys.find? (fun k => k.key == keyStr) with
  | none => (.error .invalidAPIKey, db)
  | some key =>
    if db.updateExecFails then
      (.error .execError, db)
    else
      let key2 := { key with lastUsed := db.nowTime }
      let db2 := db.writeLastUsed key.id
      if key2.expiresAt != 0 && key2.expiresAt < db.nowTime then
        (.error .invalidAPIKey, db2)
      else
        (.ok key2, db2)

/-- PostgresDB.GetAPIKey (src/cmd/database/postgres.go lines 710-770): the
same sequence as the sqlite implementation; the IsZero expiry test of the
source is the expiresAt = 0 test here. -/
def PostgresDB.GetAPIKey (db : Store) (keyStr : String) : Except DBErr APIKeyRec × Store :=
  match db.apiKeys.find? (fun k => k.key == keyStr) with
  | none => (.error .invalidAPIKey, db)
  | some key =>
    if db.updateExecFails then
      (.error .execError, db)
    else
      let key2 := { key with lastUsed := db.nowTime }
      let db2 := db.writeLastUsed key.id
      if key2.expiresAt != 0 && key2.expiresAt < db.nowTime then
        (.error .invalidAPIKey, db2)
      else
        (.ok key2, db2)

/-! ### Authentication middlewares (src/cmd/config/config.go) -/

/-- Inbound request: header values as returned by c.GetHeader, where the
empty string means the header is absent. -/
structure Request where
  authHeader : String
  apiKeyHeader : String
  deriving DecidableEq

/-- Result of ValidateJWT for the presented token string. -/
inductive JwtResult where
  | valid (userID : Nat)
  | expired
  | invalid
  deriving DecidableEq

/-- Outcome of one middleware invocation: c.Next() with the context user,
c.AbortWithStatusJSON, or a runtime panic. -/
inductive MWOutcome where
  | next (user : Option User)
  | abortJSON (status : Nat) (msg : String)
  | panicked
  deriving DecidableEq

/-- Go strings.SplitN(s, " ", 2): split at the first space only. -/
def splitN2Space (s : String) : List String :=
  match s.splitOn " " with
  | [] => [s]
  | [a] => [a]
  | a :: rest => [a, String.intercalate " " rest]

/-- JWTMiddleware (src/cmd/config/config.go lines 117-209): requires an
Authorization header, requires the Bearer format, validates the token,
reloads the user and requires the account to be active.  A missing
Authorization header aborts the request with 401 before anything else. -/
def JWTMiddleware (validate : String → JwtResult) (db : Store) (req : Request) :
    MWOutcome × Store :=
  if req.authHeader == "" then
    (.abortJSON 401 "Authorization header is required", db)
  else
    match splitN2Space req.authHeader with
    | [p0, p1] =>
      if p0 == "Bearer" then
        match validate p1 with
        | .expired => (.abortJSON 401 "Token has expired", db)
        | .invalid => (.abortJSON 401 "Invalid token", db)
        | .valid uid =>
          match db.getUserByID uid with
          | none => (.abortJSON 401 "User not found", db)
          | some user =>
            if !user.active then
              (.abortJSON 403 "User account is inactive", db)
            else
              (.next (some user), db)
      else
        (.abortJSON 401 "invalid Authorization header format", db)
    | _ => (.abortJSON 401 "invalid Authorization header format", db)

/-- No code path of the repository ever installs a value under the context
key "now", so the lookup c.Request.Context().Value("now") performed by
APIKeyMiddleware always yields nil, modelled as none. -/
def requestCtxNow : Option Nat := none

/-- Tail of APIKeyMiddleware after the expiry check (src/cmd/config/config.go
lines 265-303): load the owning user and require the account to be
active. -/
def APIKeyMiddlewareUserStep (db2 : Store) (key : APIKeyRec) : MWOutcome × Store :=
  match db2.getUserByID key.userID with
  | none => (.abortJSON 401 "User not found", db2)
  | some user =>
    if !user.active then
      (.abortJSON 403 "User account is inactive", db2)
    else
      (.next (some user), db2)

/-- APIKeyMiddleware (src/cmd/config/config.go lines 213-305): skipped when
a principal is already in the context; otherwise requires the X-API-Key
header, looks the key up through the store (the default store is the
sqlite one), then, for a key whose expiry field is non-zero, reads the
context value "now" and performs an unchecked type assertion on it - a nil
value is a runtime panic; finally loads the owning user and requires the
account to be active. -/
def APIKeyMiddleware (db : Store) (req : Request) (priorUser : Option User)
    (ctxNow : Option Nat) : MWOutcome × Store :=
  match priorUser with
  | some u => (.next (some u), db)
  | none =>
    if req.apiKeyHeader == "" then
      (.abortJSON 401 "API key is required", db)
    else
      match SQLiteDB.GetAPIKey db req.apiKeyHeader with
      | (.error _, db2) => (.abortJSON 401 "Invalid API key", db2)
      | (.ok key, db2) =>
        if key.expiresAt != 0 then
          match ctxNow with
          | none => (.panicked, db2)
          | some now =>
            if key.expiresAt < now then
              (.abortJSON 401 "API key has expired", db2)
            else
              APIKeyMiddlewareUserStep db2 key
        else
          APIKeyMiddlewareUserStep db2 key

/-- Middleware chain of the server-management route group
(src/cmd/api/routes.go line 63): JWTMiddleware then APIKeyMiddleware.  A
Gin abort in the first middleware stops the chain, so the second runs only
when the first called c.Next(); the request context never carries a value
under "now" (requestCtxNow). -/
def serverAuthChain (validate : String → JwtResult) (db : Store) (req : Request) :
    MWOutcome × Store :=
  match JWTMiddleware validate db req with
  | (.next u, db1) => APIKeyMiddleware db1 req u requestCtxNow
  | other => other

/-! ### Permission middlewares (src/cmd/config/config.go) -/

/-- Outcome of a permission middleware. -/
inductive PermOutcome where
  | next
  | abortJSON (status : Nat) (msg : String)
  deriving DecidableEq

/-- RequirePermission (src/cmd/config/config.go lines 309-360): requires an
authenticated principal and the requested bit (admins always pass). -/
def RequirePermission (permission : Nat) (ctxUser : Option User) : PermOutcome :=
  match ctxUser with
  | none => .abortJSON 401 "Authentication required"
  | some user =>
    if !user.HasPermission permission then
      .abortJSON 403 "Permission denied"
    else
      .next

/-- RequireServerPermission (src/cmd/config/config.go lines 363-429):
requires an authenticated principal; with no serverName parameter, or when
the server record cannot be resolved, falls back to the plain permission
test; for a resolved record the ownership-aware HasServerPermission
decides. -/
def RequireServerPermission (db : Store) (permission : Nat) (serverNameParam : String)
    (ctxUser : Option User) : PermOutcome :=
  match ctxUser with
  | none => .abortJSON 401 "Authentication required"
  | some user =>
    if serverNameParam == "" then
      if !user.HasPermission permission then
        .abortJSON 403 "Permission denied"
      else
        .next
    else
      match db.getServerByName serverNameParam with
      | none =>
        if !user.HasPermission permission then
          .abortJSON 403 "Permission denied"
        else
          .next
      | some server =>
        if !user.HasServerPermission server.ownerID permission then
          .abortJSON 403 "Permission denied"
        else
          .next

/-! ### Orchestration-platform state (consumed interface, section 6)

The Kubernetes client is consumed through create/get/delete primitives
keyed by resource names.  Create fails with AlreadyExists when an object
of that name exists; Delete fails with NotFound when it does not; both are
the native semantics of the platform API. -/

/-- Environment variable of a container (corev1.EnvVar). -/
structure EnvVar where
  name : String
  value : String
  deriving DecidableEq

/-- Workload object created by CreateDeployment
(src/cmd/kubernetes/deployement.go): name, desired replica count, the
volume claim mounted at the data path, and the container environment. -/
structure Deployment where
  name : String
  replicas : Nat
  pvcName : String
  env : List EnvVar
  deriving DecidableEq

/-- Service object created by CreateService (src/cmd/kubernetes/service.go):
name, service type, port, the app selector, and the annotation map (annots
models the Annotations field). -/
structure Service where
  name : String
  svcType : String
  port : Nat
  selectorApp : String
  annots : List (String × String)
  deriving DecidableEq

/-- Pod of a workload, carrying the app label CreateDeployment stamps on
the pod template. -/
structure Pod where
  name : String
  appLabel : String
  deriving DecidableEq

/-- State of the namespace the program operates in. -/
structure ClusterState where
  deployments : List Deployment
  pvcs : List String
  services : List Service
  pods : List Pod
  deriving DecidableEq

/-- Platform errors surfaced by the client. -/
inductive KErr where
  | alreadyExists
  | notFound
  deriving DecidableEq

/-- Platform primitive: get a deployment by name. -/
def getDeployment (s : ClusterState) (name : String) : Option Deployment :=
  s.deployments.find? (fun d => d.name == name)

/-- Platform primitive: create a deployment; AlreadyExists when the name is
taken. -/
def createDeploymentK (s : ClusterState) (d : Deployment) : Except KErr ClusterState :=
  if s.deployments.any (fun x => x.name == d.name) then
    .error .alreadyExists
  else
    .ok { s with deployments := d :: s.deployments }

/-- Platform primitive: delete a deployment; NotFound when absent. -/
def deleteDeploymentK (s : ClusterState) (name : String) : Except KErr ClusterState :=
  if s.deployments.any (fun x => x.name == name) then
    .ok { s with deployments := s.deployments.filter (fun x => x.name != name) }
  else
    .error .notFound

/-- Platform primitive: update the replica count of an existing deployment. -/
def updateDeploymentReplicas (s : ClusterState) (name : String) (replicas : Nat) :
    ClusterState :=
  { s with deployments :=
      s.deployments.map (fun d => if d.name == name then { d with replicas := replicas } else d) }

/-- Platform primitive: get a volume claim by name. -/
def getPVCK (s : ClusterState) (name : String) : Option String :=
  if s.pvcs.contains name then some name else none

/-- Platform primitive: create a volume claim; AlreadyExists when the name
is taken. -/
def createPVCK (s : ClusterState) (name : String) : Except KErr ClusterState :=
  if s.pvcs.contains name then
    .error .alreadyExists
  else
    .ok { s with pvcs := name :: s.pvcs }

/-- Platform primitive: delete a volume claim; NotFound when absent. -/
def deletePVCK (s : ClusterState) (name : String) : Except KErr ClusterState :=
  if s.pvcs.contains name then
    .ok { s with pvcs := s.pvcs.filter (fun x => x != name) }
  else
    .error .notFound

/-- Platform primitive: create a service; AlreadyExists when the name is
taken. -/
def createServiceK (s : ClusterState) (svc : Service) : Except KErr ClusterState :=
  if s.services.any (fun x => x.name == svc.name) then
    .error .alreadyExists
  else
    .ok { s with services := svc :: s.services }

/-- Platform primitive: delete a service; NotFound when absent. -/
def deleteServiceK (s : ClusterState) (name : String) : Except KErr ClusterState :=
  if s.services.any (fun x => x.name == name) then
    .ok { s with services := s.services.filter (fun x => x.name != name) }
  else
    .error .notFound

/-! ### Repository wrappers over the platform (src/cmd/kubernetes) -/

/-- EnsurePVC (src/cmd/kubernetes/storage.go lines 14-39): get the claim;
when it exists the call is a no-op, otherwise the claim is created. -/
def EnsurePVC (s : ClusterState) (pvcName : String) : Except KErr ClusterState :=
  match getPVCK s pvcName with
  | some _ => .ok s
  | none => createPVCK s pvcName

/-- DeletePVC (src/cmd/kubernetes/storage.go lines 42-44): the plain
platform delete, whose NotFound error is passed through. -/
def DeletePVC (s : ClusterState) (pvcName : String) : Except KErr ClusterState :=
  deletePVCK s pvcName

/-- CreateDeployment (src/cmd/kubernetes/deployement.go lines 27-101):
create the workload with DefaultReplicas, the given claim mounted, and the
given environment. -/
def CreateDeployment (s : ClusterState) (deploymentName pvcName : String)
    (envVars : List EnvVar) : Except KErr ClusterState :=
  createDeploymentK s
    { name := deploymentName, replicas := DefaultReplicas, pvcName := pvcName, env := envVars }

/-- DeleteDeployment: the plain platform delete of the workload object. -/
def DeleteDeployment (s : ClusterState) (deploymentName : String) : Except KErr ClusterState :=
  deleteDeploymentK s deploymentName

/-- SetDeploymentReplicas (src/cmd/kubernetes/deployement.go lines 141-152):
get the deployment, NotFound when absent, otherwise update its replica
count. -/
def SetDeploymentReplicas (s : ClusterState) (deploymentName : String) (replicas : Nat) :
    Except KErr ClusterState :=
  match getDeployment s deploymentName with
  | none => .error .notFound
  | some _ => .ok (updateDeploymentReplicas s deploymentName replicas)

/-- CreateService (src/cmd/kubernetes/service.go lines 12-39): the service
is named deploymentName plus "-svc", selects the app label, and carries
the caller-supplied type, port and annotation map.  The created object is
returned alongside the new state. -/
def CreateService (s : ClusterState) (deploymentName : String) (svcType : String)
    (port : Nat) (annots : List (String × String)) : Except KErr (Service × ClusterState) :=
  let svc : Service :=
    { name := deploymentName ++ "-svc", svcType := svcType, port := port,
      selectorApp := deploymentName, annots := annots }
  match createServiceK s svc with
  | .error e => .error e
  | .ok s2 => .ok (svc, s2)

/-- DeleteService (src/cmd/kubernetes/service.go lines 42-44): the plain
platform delete, whose NotFound error is passed through. -/
def DeleteService (s : ClusterState) (serviceName : String) : Except KErr ClusterState :=
  deleteServiceK s serviceName

/-- GetMinecraftPod (src/cmd/kubernetes/pod.go lines 15-31): first pod
carrying the app label of the deployment, none when there is none. -/
def GetMinecraftPod (s : ClusterState) (deploymentName : String) : Option Pod :=
  (s.pods.filter (fun p => p.appLabel == deploymentName)).head?

/-! ### Remote command execution (src/cmd/kubernetes/pod.go) -/

/-- Environment of one remote execution: whether building the SPDY executor
fails, and otherwise what StreamWithContext wrote into the stdout and
stderr buffers before returning, together with its error (a stream
failure, a non-zero exit, or the bounded timeout). -/
structure ExecEnv where
  executorErr : Option String
  streamStdout : String
  streamStderr : String
  streamErr : Option String
  deriving DecidableEq

/-- ExecuteCommandInPod (src/cmd/kubernetes/pod.go lines 35-71): when the
executor cannot be built the call returns empty buffers and that error;
otherwise the buffers filled by the stream are returned together with any
stream error - the source returns the command output even if there was an
error. -/
def ExecuteCommandInPod (env : ExecEnv) (podName nsName containerName command : String) :
    String × String × Option String :=
  match env.executorErr with
  | some e => ("", "", some e)
  | none => (env.streamStdout, env.streamStderr, env.streamErr)

/-! ### HTTP handlers (src/cmd/api/handlers) -/

/-- Response written by a handler: status and the JSON body as a key-value
list. -/
structure HttpResponse where
  status : Nat
  body : List (String × String)
  deriving DecidableEq

/-- Externally visible platform calls a handler performs, in order. -/
inductive Action where
  | execCmd (pod : String) (cmd : String)
  | scaleDeployment (name : String) (replicas : Nat)
  | deleteDeploymentA (name : String)
  | deletePVCA (name : String)
  | deleteServiceA (name : String)
  | createServiceA (name : String)
  deriving DecidableEq

/-- Result of running a handler: the response, the final cluster state, and
the trace of platform calls. -/
structure HandlerResult where
  resp : HttpResponse
  state : ClusterState
  trace : List Action
  deriving DecidableEq

/-- Fixed base environment of every created workload
(src/cmd/api/handlers/command.go lines 88-97): EULA acceptance and the
console pipe. -/
def baseEnv : List EnvVar :=
  [{ name := "EULA", value := "TRUE" }, { name := "CREATE_CONSOLE_IN_PIPE", value := "true" }]

/-- StartMinecraftServerHandler (src/cmd/api/handlers/command.go lines
38-128): derive the workload and claim names from the server name, ensure
the claim exists, then create the workload with the base environment
merged with the caller overrides.  A workload-creation failure is returned
as a 500 with no further action: the handler performs no claim rollback. -/
def StartMinecraftServerHandler (s : ClusterState) (serverName : String)
    (env : List EnvVar) : HttpResponse × ClusterState :=
  let deploymentName := DeploymentPrefix ++ serverName
  let pvcName := deploymentName ++ PVCSuffix
  match EnsurePVC s pvcName with
  | .error _ =>
    ({ status := 500, body := [("error", "Failed to ensure PVC")] }, s)
  | .ok s1 =>
    let envVars := baseEnv ++ env
    match CreateDeployment s1 deploymentName pvcName envVars with
    | .error _ =>
      ({ status := 500, body := [("error", "Failed to create deployment")] }, s1)
    | .ok s2 =>
      ({ status := 200,
         body := [("message", "Minecraft server started"),
                  ("deploymentName", deploymentName), ("pvcName", pvcName)] }, s2)

/-- Console command issued before a stop (src/cmd/api/handlers/command.go
line 320). -/
def saveAllCommand : String := "mc-send-to-console save-all"

/-- StopMinecraftServerHandler (src/cmd/api/handlers/command.go lines
268-364): 404 when the workload does not exist; when a pod of the workload
is found, the save-all command is executed in it synchronously and a save
failure aborts the stop with a 500, leaving the cluster untouched; only
after a successful save (or when no pod is running) is the workload scaled
to 0.  No volume-claim call appears anywhere in the handler. -/
def StopMinecraftServerHandler (exec : ExecEnv) (s : ClusterState) (serverName : String) :
    HandlerResult :=
  let deploymentName := DeploymentPrefix ++ serverName
  match getDeployment s deploymentName with
  | none =>
    { resp := { status := 404, body := [("error", "Deployment not found")] },
      state := s, trace := [] }
  | some _ =>
    match GetMinecraftPod s deploymentName with
    | some pod =>
      let r := ExecuteCommandInPod exec pod.name DefaultNamespace "minecraft-server"
        saveAllCommand
      match r.2.2 with
      | some _ =>
        { resp := { status := 500,
                    body := [("error", "Failed to save world"),
                             ("deploymentName", deploymentName)] },
          state := s, trace := [.execCmd pod.name saveAllCommand] }
      | none =>
        match SetDeploymentReplicas s deploymentName 0 with
        | .error _ =>
          { resp := { status := 500,
                      body := [("error", "Failed to scale deployment"),
                               ("deploymentName", deploymentName)] },
            state := s,
            trace := [.execCmd pod.name saveAllCommand, .scaleDeployment deploymentName 0] }
        | .ok s2 =>
          { resp := { status := 200,
                      body := [("message", "Server stopped, data retained"),
                               ("deploymentName", deploymentName)] },
            state := s2,
            trace := [.execCmd pod.name saveAllCommand, .scaleDeployment deploymentName 0] }
    | none =>
      match SetDeploymentReplicas s deploymentName 0 with
      | .error _ =>
        { resp := { status := 500,
                    body := [("error", "Failed to scale deployment"),
                             ("deploymentName", deploymentName)] },
          state := s, trace := [.scaleDeployment deploymentName 0] }
      | .ok s2 =>
        { resp := { status := 200,
                    body := [("message", "Server stopped, data retained"),
                             ("deploymentName", deploymentName)] },
          state := s2, trace := [.scaleDeployment deploymentName 0] }

/-- Best-effort cleanup step of the delete handler: a failing sub-delete
keeps the previous state and appends a warning to the log, a successful
one advances the state. -/
def tryCleanup (r : Except KErr ClusterState) (s : ClusterState) (warnMsg : String)
    (warnings : List String) : ClusterState × List String :=
  match r with
  | .error _ => (s, warnings ++ [warnMsg])
  | .ok s1 => (s1, warnings)

/-- DeleteMinecraftServerHandler (src/cmd/api/handlers/command.go lines
454-524): delete the workload, the claim and the service in turn; each
failing sub-delete is logged as a warning (the warnings component below
models the log), and the handler always answers 200 with a fixed body of
message, deploymentName and pvcName - the response never carries the
warnings. -/
def DeleteMinecraftServerHandler (s : ClusterState) (serverName : String) :
    HandlerResult × List String :=
  let deploymentName := DeploymentPrefix ++ serverName
  let pvcName := deploymentName ++ PVCSuffix
  let serviceName := deploymentName ++ "-svc"
  let step1 := tryCleanup (DeleteDeployment s deploymentName) s
    "Error when deleting deployment" []
  let step2 := tryCleanup (DeletePVC step1.1 pvcName) step1.1
    "Error when deleting PVC" step1.2
  let step3 := tryCleanup (DeleteService step2.1 serviceName) step2.1
    "Error when deleting service" step2.2
  ({ resp := { status := 200,
               body := [("message", "Deployment, PVC and network resources deleted"),
                        ("deploymentName", deploymentName), ("pvcName", pvcName)] },
     state := step3.1,
     trace := [.deleteDeploymentA deploymentName, .deletePVCA pvcName,
               .deleteServiceA serviceName] },
   step3.2)

/-- Request body of the expose endpoint
(src/cmd/api/handlers/network.go lines 17-21). -/
structure ExposeRequest where
  exposureType : String
  domain : String
  port : Nat
  deriving DecidableEq

/-- Switch of ExposeMinecraftServerHandler mapping the exposure type to the
service type and annotation map (src/cmd/api/handlers/network.go lines
151-161): NodePort and LoadBalancer map to themselves, MCRouter maps to a
ClusterIP service carrying the routing domain as an annotation, anything
else maps to plain ClusterIP. -/
def exposureServiceParams (exposureType domain : String) :
    String × List (String × String) :=
  if exposureType == "NodePort" then
    ("NodePort", [])
  else if exposureType == "LoadBalancer" then
    ("LoadBalancer", [])
  else if exposureType == "MCRouter" then
    ("ClusterIP", [("mc-router.itzg.me/externalServerName", domain)])
  else
    ("ClusterIP", [])

/-- Cleanup step of the expose handler (src/cmd/api/handlers/network.go
line 145): delete any existing service of the name, ignoring the error. -/
def deleteIgnoreError (s : ClusterState) (serviceName : String) : ClusterState :=
  match DeleteService s serviceName with
  | .error _ => s
  | .ok s1 => s1

/-- ExposeMinecraftServerHandler (src/cmd/api/handlers/network.go lines
41-228): 404 when the workload does not exist; 400 on an invalid exposure
type or a missing MCRouter domain; the port defaults to 25565; then any
existing service of the canonical name is deleted with the error ignored,
and the new service is created.  The success response carries the service
name and types (mode details such as an assigned node port are filled by
the platform and are not modelled). -/
def ExposeMinecraftServerHandler (s : ClusterState) (serverName : String)
    (req : ExposeRequest) : HandlerResult :=
  let deploymentName := DeploymentPrefix ++ serverName
  match getDeployment s deploymentName with
  | none =>
    { resp := { status := 404, body := [("error", "Deployment not found")] },
      state := s, trace := [] }
  | some _ =>
    if !(req.exposureType == "ClusterIP" || req.exposureType == "NodePort"
        || req.exposureType == "LoadBalancer" || req.exposureType == "MCRouter") then
      { resp := { status := 400, body := [("error", "Invalid exposureType")] },
        state := s, trace := [] }
    else if req.exposureType == "MCRouter" && req.domain == "" then
      { resp := { status := 400,
                  body := [("error", "Domain is required for MCRouter exposure type")] },
        state := s, trace := [] }
    else
      let port := if req.port == 0 then 25565 else req.port
      let serviceName := deploymentName ++ "-svc"
      let s1 := deleteIgnoreError s serviceName
      let params := exposureServiceParams req.exposureType req.domain
      match CreateService s1 deploymentName params.1 port params.2 with
      | .error _ =>
        { resp := { status := 500, body := [("error", "Failed to create service")] },
          state := s1,
          trace := [.deleteServiceA serviceName, .createServiceA serviceName] }
      | .ok (svc, s2) =>
        { resp := { status := 200,
                    body := [("message", "Service created"), ("serviceName", svc.name),
                             ("exposureType", req.exposureType),
                             ("serviceType", params.1)] },
          state := s2,
          trace := [.deleteServiceA serviceName, .createServiceA serviceName] }

/-! ### Concrete fixtures used by witnesses and counterexamples -/

/-- An active user holding only the view permission. -/
def user7 : User :=
  { id := 7, username := "alice", email := "alice@example.com", passwordHash := "h",
    permissions := PermViewServer, active := true, lastLogin := none,
    createdAt := 0, updatedAt := 0 }

/-- A well-formed API key of user7 with no expiry. -/
def key1 : APIKeyRec :=
  { id := 1, userID := 7, key := "mcapi-k1", description := "ci", lastUsed := 0,
    expiresAt := 0, createdAt := 0 }

/-- A well-formed API key of user7 expiring in the future (time 100). -/
def key2 : APIKeyRec :=
  { id := 2, userID := 7, key := "mcapi-k2", description := "ci", lastUsed := 0,
    expiresAt := 100, createdAt := 0 }

/-- A healthy store at time 50 holding user7 and both keys. -/
def db0 : Store :=
  { users := [user7], apiKeys := [key1, key2], servers := [],
    updateExecFails := false, nowTime := 50 }

/-- The same store with the lastUsed UPDATE statement failing. -/
def db7 : Store :=
  { users := [user7], apiKeys := [key1, key2], servers := [],
    updateExecFails := true, nowTime := 50 }

/-- A request carrying a valid API key but no Authorization header. -/
def req0 : Request :=
  { authHeader := "", apiKeyHeader := "mcapi-k1" }

/-- A request carrying the future-expiring API key and no Authorization
header. -/
def req2 : Request :=
  { authHeader := "", apiKeyHeader := "mcapi-k2" }

/-- A token validator rejecting everything; irrelevant to requests with no
Authorization header. -/
def validate0 : String → JwtResult := fun _ => JwtResult.invalid

/-- The empty namespace. -/
def emptyCluster : ClusterState :=
  { deployments := [], pvcs := [], services := [], pods := [] }

/-- The workload of server "survival" as created by the handler. -/
def depA : Deployment :=
  { name := "minecraft-server-survival", replicas := 1,
    pvcName := "minecraft-server-survival-pvc", env := baseEnv }

/-- A running pod of that workload. -/
def podA : Pod :=
  { name := "minecraft-server-survival-7f9", appLabel := "minecraft-server-survival" }

/-- A cluster where server "survival" is running with its claim bound. -/
def runningCluster : ClusterState :=
  { deployments := [depA], pvcs := ["minecraft-server-survival-pvc"],
    services := [], pods := [podA] }

/-- A cluster where the workload name is taken but no claim exists. -/
def collidingCluster : ClusterState :=
  { deployments := [depA], pvcs := [], services := [], pods := [] }

/-- A remote execution whose stream fails before completing. -/
def execFail : ExecEnv :=
  { executorErr := none, streamStdout := "", streamStderr := "",
    streamErr := some "error dialing backend" }

/-- A remote execution that completes cleanly. -/
def execOk : ExecEnv :=
  { executorErr := none, streamStdout := "Saved the game", streamStderr := "",
    streamErr := none }

/-- An MCRouter-mode service previously created for server "survival". -/
def svcRouter : Service :=
  { name := "minecraft-server-survival-svc", svcType := "ClusterIP", port := 25565,
    selectorApp := "minecraft-server-survival",
    annots := [("mc-router.itzg.me/externalServerName", "mc.example.com")] }

/-- The running cluster with an MCRouter-mode exposure already in place. -/
def exposedCluster : ClusterState :=
  { deployments := [depA], pvcs := ["minecraft-server-survival-pvc"],
    services := [svcRouter], pods := [podA] }

/-- A NodePort re-exposure request on the default port. -/
def nodePortReq : ExposeRequest :=
  { exposureType := "NodePort", domain := "", port := 0 }

/-- The ownership record of server "survival", owned by user7. -/
def srvA : ServerRec := { name := "survival", ownerID := 7 }

/-- A store that resolves server "survival" to its record. -/
def db6 : Store :=
  { users := [user7], apiKeys := [key1], servers := [srvA],
    updateExecFails := false, nowTime := 50 }

end Minecharts

namespace Minecharts

/-! ## Helper lemmas -/

/-- After the best-effort service delete of the expose handler, no service
of the deleted name remains. -/
theorem afterDeleteService_no_name (s : ClusterState) (n : String) :
    ((deleteIgnoreError s n).services.any (fun x => x.name == n)) = false := by
  unfold deleteIgnoreError DeleteService deleteServiceK
  cases h : s.services.any (fun x => x.name == n) with
  | false => simp [h]
  | true =>
    simp only [h, if_true]
    rw [List.any_eq_false]
    intro x hx
    have hmem := List.mem_filter.mp hx
    simpa using hmem.2

/-- The best-effort service delete only removes services. -/
theorem afterDeleteService_subset (s : ClusterState) (n : String) :
    ∀ x ∈ (deleteIgnoreError s n).services, x ∈ s.services := by
  unfold deleteIgnoreError DeleteService deleteServiceK
  cases h : s.services.any (fun x => x.name == n) with
  | false => simp [h]
  | true =>
    simp only [h, if_true]
    intro x hx
    exact (List.mem_filter.mp hx).1

/-- When every service selecting a workload carries the canonical service
name, the best-effort delete of that name leaves no service selecting the
workload at all. -/
theorem afterDeleteService_no_selector (s : ClusterState) (d : String)
    (hinv : ∀ svc ∈ s.services, svc.selectorApp = d → svc.name = d ++ "-svc") :
    ((deleteIgnoreError s (d ++ "-svc")).services.filter
      (fun x => x.selectorApp == d)) = [] := by
  rw [List.filter_eq_nil_iff]
  intro x hx
  have hxs := afterDeleteService_subset s (d ++ "-svc") x hx
  have hno := List.any_eq_false.mp (afterDeleteService_no_name s (d ++ "-svc")) x hx
  intro hsel
  rw [beq_iff_eq] at hsel
  exact hno (by simp [hinv x hxs hsel])

/-- Creating a service whose name is not taken succeeds and prepends the
new object. -/
theorem CreateService_ok_of_no_name (s : ClusterState) (d st : String) (port : Nat)
    (annots : List (String × String))
    (h : s.services.any (fun x => x.name == d ++ "-svc") = false) :
    CreateService s d st port annots =
      Except.ok
        ({ name := d ++ "-svc", svcType := st, port := port, selectorApp := d,
           annots := annots },
         { s with services :=
            { name := d ++ "-svc", svcType := st, port := port, selectorApp := d,
              annots := annots } :: s.services }) := by
  simp [CreateService, createServiceK, h]

/-- The best-effort workload delete always leaves the state with the named
deployments filtered away, whether or not any existed. -/
theorem tryCleanup_deleteDeployment (s : ClusterState) (n msg : String)
    (w : List String) :
    (tryCleanup (DeleteDeployment s n) s msg w).1 =
      { s with deployments := s.deployments.filter (fun x => x.name != n) } := by
  unfold tryCleanup DeleteDeployment deleteDeploymentK
  cases h : s.deployments.any (fun x => x.name == n) with
  | true => simp [h]
  | false =>
    have hf : s.deployments.filter (fun x => x.name != n) = s.deployments := by
      rw [List.filter_eq_self]
      intro x hx
      have hne := List.any_eq_false.mp h x hx
      simpa using hne
    simp [h, hf]

/-- The best-effort claim delete always leaves the state with the named
claim filtered away, whether or not it existed. -/
theorem tryCleanup_deletePVC (s : ClusterState) (n msg : String) (w : List String) :
    (tryCleanup (DeletePVC s n) s msg w).1 =
      { s with pvcs := s.pvcs.filter (fun x => x != n) } := by
  unfold tryCleanup DeletePVC deletePVCK
  cases h : s.pvcs.contains n with
  | true => simp [h]
  | false =>
    have hf : s.pvcs.filter (fun x => x != n) = s.pvcs := by
      rw [List.filter_eq_self]
      intro x hx
      have hne : ¬x = n := by
        intro hxn
        rw [List.contains_eq_any_beq] at h
        have := List.any_eq_false.mp h x hx
        simp [hxn] at this
      simpa using hne
    simp [h, hf]

/-- The best-effort service delete always leaves the state with the named
services filtered away, whether or not any existed. -/
theorem tryCleanup_deleteService (s : ClusterState) (n msg : String)
    (w : List String) :
    (tryCleanup (DeleteService s n) s msg w).1 =
      { s with services := s.services.filter (fun x => x.name != n) } := by
  unfold tryCleanup DeleteService deleteServiceK
  cases h : s.services.any (fun x => x.name == n) with
  | true => simp [h]
  | false =>
    have hf : s.services.filter (fun x => x.name != n) = s.services := by
      rw [List.filter_eq_self]
      intro x hx
      have hne := List.any_eq_false.mp h x hx
      simpa using hne
    simp [h, hf]

/-- The final state of the delete handler: all three named resources are
filtered out of the starting state. -/
theorem delete_handler_state (s : ClusterState) (serverName : String) :
    (DeleteMinecraftServerHandler s serverName).1.state =
      { deployments := s.deployments.filter
          (fun x => x.name != DeploymentPrefix ++ serverName),
        pvcs := s.pvcs.filter
          (fun x => x != (DeploymentPrefix ++ serverName) ++ PVCSuffix),
        services := s.services.filter
          (fun x => x.name != (DeploymentPrefix ++ serverName) ++ "-svc"),
        pods := s.pods } := by
  simp only [DeleteMinecraftServerHandler, tryCleanup_deleteDeployment,
    tryCleanup_deletePVC, tryCleanup_deleteService]

/-- Filtering a name away leaves no deployment of that name. -/
theorem list_filter_any_name_false (l : List Deployment) (n : String) :
    (l.filter (fun x => x.name != n)).any (fun x => x.name == n) = false := by
  rw [List.any_eq_false]
  intro x hx
  have h := List.mem_filter.mp hx
  simpa using h.2

/-- Filtering a string away leaves a list not containing it. -/
theorem list_filter_contains_false (l : List String) (n : String) :
    (l.filter (fun x => x != n)).contains n = false := by
  rw [List.contains_eq_any_beq, List.any_eq_false]
  intro x hx
  have h := List.mem_filter.mp hx
  simp only [bne_iff_ne, ne_eq] at h
  simp [Ne.symm h.2]

/-- Filtering a name away leaves no service of that name. -/
theorem list_filter_any_svc_false (l : List Service) (n : String) :
    (l.filter (fun x => x.name != n)).any (fun x => x.name == n) = false := by
  rw [List.any_eq_false]
  intro x hx
  have h := List.mem_filter.mp hx
  simpa using h.2

end Minecharts

namespace Minecharts

/-! ## Claims -/

/-- Claim C1, counterexample.  The request req0 carries the valid API key
of the active user user7 in X-API-Key and no Authorization header, yet the
server-route middleware chain rejects it with 401 at the bearer step: it
is not resolved to the key owner. -/
theorem C1_counterexample :
    (SQLiteDB.GetAPIKey db0 "mcapi-k1").1 = Except.ok { key1 with lastUsed := 50 } ∧
    user7.active = true ∧
    serverAuthChain validate0 db0 req0 =
      (MWOutcome.abortJSON 401 "Authorization header is required", db0) ∧
    (serverAuthChain validate0 db0 req0).1 ≠ MWOutcome.next (some user7) := by
  refine ⟨rfl, rfl, by decide, by decide⟩

/-- Claim C1, amended: bearer-token validation runs first and any bearer
failure - in particular a missing Authorization header - aborts the
request with 401 before API-key validation is reached, so a request
carrying a valid API key in X-API-Key but no Authorization header is
rejected rather than resolved to the key owner. -/
theorem C1_missing_auth_header_rejected
    (validate : String → JwtResult) (db : Store) (req : Request)
    (h : req.authHeader = "") :
    serverAuthChain validate db req =
      (MWOutcome.abortJSON 401 "Authorization header is required", db) := by
  simp [serverAuthChain, JWTMiddleware, h]

/-- Witness for C1_missing_auth_header_rejected at req0. -/
theorem C1_missing_auth_header_rejected_witness :
    req0.authHeader = "" ∧
    serverAuthChain validate0 db0 req0 =
      (MWOutcome.abortJSON 401 "Authorization header is required", db0) :=
  ⟨rfl, C1_missing_auth_header_rejected validate0 db0 req0 rfl⟩

/-- Claim C9: when the remote executor is built, ExecuteCommandInPod
returns exactly the stdout and stderr captured into the buffers together
with any stream error - partial output captured before a stream failure or
the bounded timeout is never discarded. -/
theorem C9_partial_output_returned
    (env : ExecEnv) (podName nsName containerName command : String)
    (h : env.executorErr = none) :
    ExecuteCommandInPod env podName nsName containerName command =
      (env.streamStdout, env.streamStderr, env.streamErr) := by
  simp [ExecuteCommandInPod, h]

/-- Witness for C9_partial_output_returned: a stream that wrote partial
output and then timed out still hands the caller both buffers and the
error. -/
theorem C9_partial_output_returned_witness :
    (ExecEnv.mk none "Saved the game" "chunk warning" (some "timeout")).executorErr = none ∧
    ExecuteCommandInPod (ExecEnv.mk none "Saved the game" "chunk warning" (some "timeout"))
        "pod-1" DefaultNamespace "minecraft-server" saveAllCommand =
      ("Saved the game", "chunk warning", some "timeout") :=
  ⟨rfl, C9_partial_output_returned _ "pod-1" DefaultNamespace "minecraft-server"
    saveAllCommand rfl⟩

/-- Claim C7, counterexample.  In store db7 the lookup of the valid key of
the active user user7 succeeds, but the synchronous lastUsed UPDATE fails;
GetAPIKey propagates that failure and API-key authentication rejects the
request with 401 instead of authenticating it. -/
theorem C7_counterexample :
    db7.apiKeys.find? (fun k => k.key == "mcapi-k1") = some key1 ∧
    (SQLiteDB.GetAPIKey db7 "mcapi-k1").1 = Except.error DBErr.execError ∧
    APIKeyMiddleware db7 req0 none requestCtxNow =
      (MWOutcome.abortJSON 401 "Invalid API key", db7) := by
  refine ⟨by decide, rfl, by decide⟩

/-- Claim C7, amended: the lastUsed update is a synchronous step inside
GetAPIKey in both store implementations, and its failure fails the
authorization decision: GetAPIKey returns the error and the API-key
middleware rejects the request with 401. -/
theorem C7_update_failure_rejects
    (db : Store) (keyStr : String) (key : APIKeyRec)
    (hfind : db.apiKeys.find? (fun k => k.key == keyStr) = some key)
    (hfail : db.updateExecFails = true) :
    (SQLiteDB.GetAPIKey db keyStr).1 = Except.error DBErr.execError ∧
    (PostgresDB.GetAPIKey db keyStr).1 = Except.error DBErr.execError ∧
    ∀ req : Request, req.apiKeyHeader = keyStr → keyStr ≠ "" →
      (APIKeyMiddleware db req none requestCtxNow).1 =
        MWOutcome.abortJSON 401 "Invalid API key" := by
  refine ⟨?_, ?_, ?_⟩
  · simp [SQLiteDB.GetAPIKey, hfind, hfail]
  · simp [PostgresDB.GetAPIKey, hfind, hfail]
  · intro req hreq hne
    simp [APIKeyMiddleware, hreq, hne, SQLiteDB.GetAPIKey, hfind, hfail]

/-- Witness for C7_update_failure_rejects at db7 and the key of user7. -/
theorem C7_update_failure_rejects_witness :
    (db7.apiKeys.find? (fun k => k.key == "mcapi-k1") = some key1 ∧
      db7.updateExecFails = true) ∧
    ((SQLiteDB.GetAPIKey db7 "mcapi-k1").1 = Except.error DBErr.execError ∧
      (PostgresDB.GetAPIKey db7 "mcapi-k1").1 = Except.error DBErr.execError ∧
      ∀ req : Request, req.apiKeyHeader = "mcapi-k1" → "mcapi-k1" ≠ "" →
        (APIKeyMiddleware db7 req none requestCtxNow).1 =
          MWOutcome.abortJSON 401 "Invalid API key") :=
  ⟨⟨by decide, rfl⟩, C7_update_failure_rejects db7 "mcapi-k1" key1 (by decide) rfl⟩

/-- Claim C10: for every API key that passed the store lookup and whose
expiry field is non-zero, the API-key middleware reads the context value
"now" - which no code path ever sets, so the lookup yields nil - and the
unchecked type assertion on it panics; the clean 401 expiry response is
never produced on that path. -/
theorem C10_expiry_branch_panics
    (db : Store) (req : Request) (key : APIKeyRec) (db2 : Store)
    (hok : SQLiteDB.GetAPIKey db req.apiKeyHeader = (Except.ok key, db2))
    (hne : req.apiKeyHeader ≠ "")
    (hexp : key.expiresAt ≠ 0) :
    APIKeyMiddleware db req none requestCtxNow = (MWOutcome.panicked, db2) := by
  simp [APIKeyMiddleware, hne, hok, requestCtxNow, hexp]

/-- Claim C2: on a running server (workload present, pod resolved), the
stop handler never touches the volume claims; a failing save-all aborts
the stop with a 500 and the cluster is left exactly as it was - the
workload keeps running; and on a successful save the trace shows the
save-all execution strictly before the scale-to-zero, with a 200. -/
theorem C2_stop_fail_closed
    (exec : ExecEnv) (s : ClusterState) (serverName : String) (pod : Pod)
    (hdep : (getDeployment s (DeploymentPrefix ++ serverName)).isSome = true)
    (hpod : GetMinecraftPod s (DeploymentPrefix ++ serverName) = some pod) :
    (StopMinecraftServerHandler exec s serverName).state.pvcs = s.pvcs ∧
    ((ExecuteCommandInPod exec pod.name DefaultNamespace "minecraft-server"
        saveAllCommand).2.2.isSome = true →
      (StopMinecraftServerHandler exec s serverName).resp.status = 500 ∧
      (StopMinecraftServerHandler exec s serverName).state = s) ∧
    ((ExecuteCommandInPod exec pod.name DefaultNamespace "minecraft-server"
        saveAllCommand).2.2 = none →
      (StopMinecraftServerHandler exec s serverName).trace =
        [Action.execCmd pod.name saveAllCommand,
         Action.scaleDeployment (DeploymentPrefix ++ serverName) 0] ∧
      (StopMinecraftServerHandler exec s serverName).resp.status = 200) := by
  obtain ⟨dep, hdep2⟩ := Option.isSome_iff_exists.mp hdep
  cases hx : (ExecuteCommandInPod exec pod.name DefaultNamespace "minecraft-server"
      saveAllCommand).2.2 with
  | some e =>
    refine ⟨?_, ?_, ?_⟩
    · simp [StopMinecraftServerHandler, hdep2, hpod, hx]
    · intro _
      constructor <;> simp [StopMinecraftServerHandler, hdep2, hpod, hx]
    · intro hcontra
      simp at hcontra
  | none =>
    refine ⟨?_, ?_, ?_⟩
    · simp [StopMinecraftServerHandler, hdep2, hpod, hx, SetDeploymentReplicas,
        updateDeploymentReplicas]
    · intro hcontra
      simp at hcontra
    · intro _
      constructor <;> simp [StopMinecraftServerHandler, hdep2, hpod, hx,
        SetDeploymentReplicas, updateDeploymentReplicas]

/-- Witness for C2_stop_fail_closed: on the running cluster with a failing
save stream, the stop aborts with 500 and the cluster is unchanged. -/
theorem C2_stop_fail_closed_witness :
    ((getDeployment runningCluster (DeploymentPrefix ++ "survival")).isSome = true ∧
      GetMinecraftPod runningCluster (DeploymentPrefix ++ "survival") = some podA) ∧
    ((StopMinecraftServerHandler execFail runningCluster "survival").state.pvcs =
        runningCluster.pvcs ∧
      ((ExecuteCommandInPod execFail podA.name DefaultNamespace "minecraft-server"
          saveAllCommand).2.2.isSome = true →
        (StopMinecraftServerHandler execFail runningCluster "survival").resp.status = 500 ∧
        (StopMinecraftServerHandler execFail runningCluster "survival").state =
          runningCluster) ∧
      ((ExecuteCommandInPod execFail podA.name DefaultNamespace "minecraft-server"
          saveAllCommand).2.2 = none →
        (StopMinecraftServerHandler execFail runningCluster "survival").trace =
          [Action.execCmd podA.name saveAllCommand,
           Action.scaleDeployment (DeploymentPrefix ++ "survival") 0] ∧
        (StopMinecraftServerHandler execFail runningCluster "survival").resp.status = 200)) :=
  ⟨⟨by decide, by decide⟩,
    C2_stop_fail_closed execFail runningCluster "survival" podA (by decide) (by decide)⟩

/-- Claim C3, counterexample.  Starting from the empty cluster, the first
create of server "survival" succeeds, but the second create of the same
name returns an error to the caller (a 500 from the AlreadyExists conflict
on the workload), instead of being treated as success. -/
theorem C3_counterexample :
    (StartMinecraftServerHandler emptyCluster "survival" []).1.status = 200 ∧
    (StartMinecraftServerHandler
        (StartMinecraftServerHandler emptyCluster "survival" []).2 "survival" []).1.status
      = 500 := by
  refine ⟨rfl, rfl⟩

/-- Claim C3, amended: a second create for an existing server name never
duplicates the volume claim and leaves the cluster untouched, but it is
not treated as success - workload creation hits the AlreadyExists conflict
and the handler returns a 500 error to the caller. -/
theorem C3_second_create_conflict
    (s : ClusterState) (serverName : String) (env1 env2 : List EnvVar)
    (hd : s.deployments.any
        (fun x => x.name == DeploymentPrefix ++ serverName) = false) :
    (StartMinecraftServerHandler s serverName env1).1.status = 200 ∧
    (StartMinecraftServerHandler
        (StartMinecraftServerHandler s serverName env1).2 serverName env2).1.status = 500 ∧
    (StartMinecraftServerHandler
        (StartMinecraftServerHandler s serverName env1).2 serverName env2).2 =
      (StartMinecraftServerHandler s serverName env1).2 := by
  have hd2 : ¬∃ x ∈ s.deployments, x.name = DeploymentPrefix ++ serverName := by
    simpa using hd
  by_cases hc : (DeploymentPrefix ++ serverName) ++ PVCSuffix ∈ s.pvcs <;>
    refine ⟨?_, ?_, ?_⟩ <;>
      simp [StartMinecraftServerHandler, EnsurePVC, getPVCK, createPVCK,
        CreateDeployment, createDeploymentK, hc, hd2]

/-- Witness for C3_second_create_conflict from the empty cluster. -/
theorem C3_second_create_conflict_witness :
    (emptyCluster.deployments.any
        (fun x => x.name == DeploymentPrefix ++ "survival") = false) ∧
    ((StartMinecraftServerHandler emptyCluster "survival" []).1.status = 200 ∧
      (StartMinecraftServerHandler
          (StartMinecraftServerHandler emptyCluster "survival" []).2 "survival" []).1.status
        = 500 ∧
      (StartMinecraftServerHandler
          (StartMinecraftServerHandler emptyCluster "survival" []).2 "survival" []).2 =
        (StartMinecraftServerHandler emptyCluster "survival" []).2) :=
  ⟨rfl, C3_second_create_conflict emptyCluster "survival" [] [] rfl⟩

/-- Claim C4, counterexample.  In collidingCluster no claim pre-exists and
the workload name is already taken, so workload creation fails right after
step (1) freshly created the claim; the handler answers 500 and the fresh
claim is still there - it was not rolled back. -/
theorem C4_counterexample :
    collidingCluster.pvcs = [] ∧
    (StartMinecraftServerHandler collidingCluster "survival" []).1.status = 500 ∧
    (StartMinecraftServerHandler collidingCluster "survival" []).2.pvcs =
      ["minecraft-server-survival-pvc"] := by
  refine ⟨rfl, rfl, rfl⟩

/-- Claim C4, amended: the create handler performs no claim rollback at
all.  For every starting state the final set of claims is exactly the
starting set with the canonical claim ensured - on a workload-creation
failure a freshly created claim stays in place, and a pre-existing claim
is never deleted. -/
theorem C4_no_pvc_rollback (s : ClusterState) (serverName : String) (env : List EnvVar) :
    (StartMinecraftServerHandler s serverName env).2.pvcs =
      (if (DeploymentPrefix ++ serverName) ++ PVCSuffix ∈ s.pvcs then s.pvcs
       else ((DeploymentPrefix ++ serverName) ++ PVCSuffix) :: s.pvcs) := by
  by_cases hc : (DeploymentPrefix ++ serverName) ++ PVCSuffix ∈ s.pvcs <;>
    by_cases hany : ∃ x ∈ s.deployments, x.name = DeploymentPrefix ++ serverName <;>
      simp [StartMinecraftServerHandler, EnsurePVC, getPVCK, createPVCK,
        CreateDeployment, createDeploymentK, hc, hany]

/-- Claim C5, counterexample.  On the empty cluster every sub-delete of the
delete handler fails, the three failures are logged as warnings, yet the
call still answers 200 and its response body is the fixed success body
with no warnings entry: failures are not collected into the response. -/
theorem C5_counterexample :
    (DeleteMinecraftServerHandler emptyCluster "survival").2 =
      ["Error when deleting deployment", "Error when deleting PVC",
       "Error when deleting service"] ∧
    (DeleteMinecraftServerHandler emptyCluster "survival").1.resp.status = 200 ∧
    (DeleteMinecraftServerHandler emptyCluster "survival").1.resp.body =
      [("message", "Deployment, PVC and network resources deleted"),
       ("deploymentName", "minecraft-server-survival"),
       ("pvcName", "minecraft-server-survival-pvc")] := by
  refine ⟨rfl, rfl, rfl⟩

/-- Claim C5, amended: delete is best-effort and fully idempotent - it
always attempts removal of the workload, the claim and the service, always
answers 200 with the fixed success body (so a second call never errors),
and afterwards none of the three resources remains; per-resource failures
are only logged as warnings, never placed in the response. -/
theorem C5_delete_best_effort (s : ClusterState) (serverName : String) :
    (DeleteMinecraftServerHandler s serverName).1.resp.status = 200 ∧
    (DeleteMinecraftServerHandler s serverName).1.resp.body =
      [("message", "Deployment, PVC and network resources deleted"),
       ("deploymentName", DeploymentPrefix ++ serverName),
       ("pvcName", (DeploymentPrefix ++ serverName) ++ PVCSuffix)] ∧
    (DeleteMinecraftServerHandler s serverName).1.trace =
      [Action.deleteDeploymentA (DeploymentPrefix ++ serverName),
       Action.deletePVCA ((DeploymentPrefix ++ serverName) ++ PVCSuffix),
       Action.deleteServiceA ((DeploymentPrefix ++ serverName) ++ "-svc")] ∧
    (DeleteMinecraftServerHandler
        (DeleteMinecraftServerHandler s serverName).1.state serverName).1.resp.status
      = 200 ∧
    ((DeleteMinecraftServerHandler s serverName).1.state.deployments.any
        (fun x => x.name == DeploymentPrefix ++ serverName)) = false ∧
    ((DeleteMinecraftServerHandler s serverName).1.state.pvcs.contains
        ((DeploymentPrefix ++ serverName) ++ PVCSuffix)) = false ∧
    ((DeleteMinecraftServerHandler s serverName).1.state.services.any
        (fun x => x.name == (DeploymentPrefix ++ serverName) ++ "-svc")) = false := by
  refine ⟨rfl, rfl, rfl, rfl, ?_, ?_, ?_⟩ <;> rw [delete_handler_state]
  · exact list_filter_any_name_false s.deployments (DeploymentPrefix ++ serverName)
  · exact list_filter_contains_false s.pvcs ((DeploymentPrefix ++ serverName) ++ PVCSuffix)
  · exact list_filter_any_svc_false s.services ((DeploymentPrefix ++ serverName) ++ "-svc")

/-- Claim C6: for server-scoped checks, the owner of the resolved server
record is allowed regardless of the global flag; when the record cannot be
resolved the check coincides with the global RequirePermission check; and
the Admin-gated account-management check ignores ownership entirely - a
non-admin principal is rejected by it no matter what they own. -/
theorem C6_owner_bypass_and_fallback :
    (∀ (db : Store) (permission : Nat) (serverName : String) (u : User)
        (server : ServerRec),
      db.getServerByName serverName = some server → server.ownerID = u.id →
      serverName ≠ "" →
      RequireServerPermission db permission serverName (some u) = PermOutcome.next) ∧
    (∀ (db : Store) (permission : Nat) (serverName : String) (u : User),
      db.getServerByName serverName = none → serverName ≠ "" →
      RequireServerPermission db permission serverName (some u) =
        RequirePermission permission (some u)) ∧
    (∀ u : User, u.HasPermission PermAdmin = false →
      RequirePermission PermAdmin (some u) =
        PermOutcome.abortJSON 403 "Permission denied") := by
  refine ⟨?_, ?_, ?_⟩
  · intro db permission serverName u server hsrv howner hname
    simp [RequireServerPermission, hname, hsrv, User.HasServerPermission, howner]
  · intro db permission serverName u hsrv hname
    simp [RequireServerPermission, RequirePermission, hname, hsrv]
  · intro u h
    simp [RequirePermission, h]

/-- Witness for C6_owner_bypass_and_fallback: user7 owns server "survival"
and lacks both PermStopServer and PermAdmin, yet the server-scoped stop
check passes for them, while the Admin-gated check still rejects them. -/
theorem C6_owner_bypass_and_fallback_witness :
    (db6.getServerByName "survival" = some srvA ∧ srvA.ownerID = user7.id ∧
      ("survival" : String) ≠ "" ∧ user7.HasPermission PermStopServer = false ∧
      user7.HasPermission PermAdmin = false) ∧
    RequireServerPermission db6 PermStopServer "survival" (some user7) =
      PermOutcome.next ∧
    RequirePermission PermAdmin (some user7) =
      PermOutcome.abortJSON 403 "Permission denied" :=
  ⟨⟨rfl, rfl, by decide, by decide, by decide⟩,
    C6_owner_bypass_and_fallback.1 db6 PermStopServer "survival" user7 srvA rfl rfl
      (by decide),
    C6_owner_bypass_and_fallback.2.2 user7 (by decide)⟩

/-- Claim C8: an expose call that passes validation first deletes the
previously created exposure object and only then creates the new one (the
trace shows the delete strictly before the create), and - provided every
service previously created for the server carries its canonical name, as
all services created by the program do - the final state holds exactly one
service selecting that server. -/
theorem C8_single_service_after_expose
    (s : ClusterState) (serverName : String) (req : ExposeRequest)
    (hdep : (getDeployment s (DeploymentPrefix ++ serverName)).isSome = true)
    (hvalid : req.exposureType = "ClusterIP" ∨ req.exposureType = "NodePort" ∨
      req.exposureType = "LoadBalancer" ∨ req.exposureType = "MCRouter")
    (hdom : req.exposureType = "MCRouter" → req.domain ≠ "")
    (hinv : ∀ svc ∈ s.services, svc.selectorApp = DeploymentPrefix ++ serverName →
      svc.name = (DeploymentPrefix ++ serverName) ++ "-svc") :
    (ExposeMinecraftServerHandler s serverName req).resp.status = 200 ∧
    (ExposeMinecraftServerHandler s serverName req).trace =
      [Action.deleteServiceA ((DeploymentPrefix ++ serverName) ++ "-svc"),
       Action.createServiceA ((DeploymentPrefix ++ serverName) ++ "-svc")] ∧
    ((ExposeMinecraftServerHandler s serverName req).state.services.filter
      (fun x => x.selectorApp == DeploymentPrefix ++ serverName)).length = 1 := by
  obtain ⟨dep, hdep2⟩ := Option.isSome_iff_exists.mp hdep
  have hb1 : (req.exposureType == "ClusterIP" || req.exposureType == "NodePort"
      || req.exposureType == "LoadBalancer" || req.exposureType == "MCRouter") = true := by
    rcases hvalid with h | h | h | h <;> simp [h]
  have hb2 : (req.exposureType == "MCRouter" && req.domain == "") = false := by
    by_cases hM : req.exposureType = "MCRouter"
    · simp [hM, hdom hM]
    · simp [hM]
  have hno := afterDeleteService_no_name s ((DeploymentPrefix ++ serverName) ++ "-svc")
  have hsel := afterDeleteService_no_selector s (DeploymentPrefix ++ serverName) hinv
  have hcr := CreateService_ok_of_no_name
    (deleteIgnoreError s ((DeploymentPrefix ++ serverName) ++ "-svc"))
    (DeploymentPrefix ++ serverName)
    (exposureServiceParams req.exposureType req.domain).1
    (if req.port == 0 then 25565 else req.port)
    (exposureServiceParams req.exposureType req.domain).2 hno
  simp only [beq_iff_eq] at hcr
  refine ⟨?_, ?_, ?_⟩ <;>
    simp [ExposeMinecraftServerHandler, hdep2, hb1, hb2, hcr, hsel]

/-- Witness for C8_single_service_after_expose: re-exposing the running
server under NodePort while an MCRouter-mode service exists leaves exactly
one service for it. -/
theorem C8_single_service_after_expose_witness :
    ((getDeployment exposedCluster (DeploymentPrefix ++ "survival")).isSome = true ∧
      (nodePortReq.exposureType = "ClusterIP" ∨ nodePortReq.exposureType = "NodePort" ∨
        nodePortReq.exposureType = "LoadBalancer" ∨
        nodePortReq.exposureType = "MCRouter") ∧
      (nodePortReq.exposureType = "MCRouter" → nodePortReq.domain ≠ "") ∧
      (∀ svc ∈ exposedCluster.services,
        svc.selectorApp = DeploymentPrefix ++ "survival" →
        svc.name = (DeploymentPrefix ++ "survival") ++ "-svc")) ∧
    ((ExposeMinecraftServerHandler exposedCluster "survival" nodePortReq).resp.status
        = 200 ∧
      (ExposeMinecraftServerHandler exposedCluster "survival" nodePortReq).trace =
        [Action.deleteServiceA ((DeploymentPrefix ++ "survival") ++ "-svc"),
         Action.createServiceA ((DeploymentPrefix ++ "survival") ++ "-svc")] ∧
      ((ExposeMinecraftServerHandler exposedCluster "survival" nodePortReq).state.services.filter
        (fun x => x.selectorApp == DeploymentPrefix ++ "survival")).length = 1) :=
  ⟨⟨by decide, Or.inr (Or.inl (by decide)), fun h => absurd h (by decide), by decide⟩,
    C8_single_service_after_expose exposedCluster "survival" nodePortReq
      (by decide) (Or.inr (Or.inl (by decide))) (fun h => absurd h (by decide)) (by decide)⟩

/-- Witness for C10_expiry_branch_panics: the future-expiring key of the
active user user7 passes the lookup in the healthy store db0, and the
middleware panics on it. -/
theorem C10_expiry_branch_panics_witness :
    (SQLiteDB.GetAPIKey db0 "mcapi-k2" =
        (Except.ok { key2 with lastUsed := 50 }, (SQLiteDB.GetAPIKey db0 "mcapi-k2").2) ∧
      req2.apiKeyHeader ≠ "" ∧ ({ key2 with lastUsed := 50 } : APIKeyRec).expiresAt ≠ 0) ∧
    APIKeyMiddleware db0 req2 none requestCtxNow =
      (MWOutcome.panicked, (SQLiteDB.GetAPIKey db0 "mcapi-k2").2) :=
  ⟨⟨rfl, by decide, by decide⟩,
    C10_expiry_branch_panics db0 req2 { key2 with lastUsed := 50 }
      (SQLiteDB.GetAPIKey db0 "mcapi-k2").2 rfl (by decide) (by decide)⟩

end Minecharts
